import Mathlib

/-!
Verification of the conversational routing workflow in `backend.py` and its
Streamlit front-end `app.py`.

The backend builds a transcript from the caller-supplied conversation history,
runs a rewrite stage, a classify stage, and one of three responder stages
(internal Q&A, external fact-finding, fallback agent), each stage being a call
to an external agent execution service.  We embed the orchestration logic
shallowly: the external service is an oracle (`Env`) mapping an input
transcript to either an error or a stage result, and `run_workflow` is a
direct transcription of the Python function of the same name.
-/

/-- A content block, Python dict `{"type": ..., "text": ...}` as built by
`_msg_to_block` and the inline literals in `run_workflow`. -/
structure Block where
  type : String
  text : String
deriving DecidableEq, Repr

/-- A Responses-style transcript item, Python dict
`{"role": ..., "content": [block]}` (`TResponseInputItem`). -/
structure TItem where
  role : String
  content : List Block
deriving DecidableEq, Repr

/-- One entry of `conversation_history : List[Dict[str, str]]`.  A Python dict
may lack either key, so both fields are optional; `msg.get("role", "user")`
and `msg.get("content", "")` are `Option.getD` on these fields. -/
structure Msg where
  role : Option String
  content : Option String
deriving DecidableEq, Repr

/-- `class WorkflowInput(BaseModel)` (the second, effective definition at
backend.py:129-131): `input_as_text: str` and
`conversation_history: List[Dict[str, str]] = []`. -/
structure WorkflowInput where
  input_as_text : String
  conversation_history : List Msg
deriving DecidableEq, Repr

/-- `class ClassifySchema(BaseModel): operating_procedure: str`
(backend.py:26-27). -/
structure ClassifySchema where
  operating_procedure : String
deriving DecidableEq, Repr

/-- The value returned by `run_workflow`: Python dict
`{"final_answer": ..., "path": ...}`. -/
structure WorkflowResult where
  final_answer : String
  path : String
deriving DecidableEq, Repr

/-- `_msg_to_block(role, text)` (backend.py:133-144).  `text = text or ""` is
the identity on `String` (Python `s or ""` returns `""` exactly when `s` is
falsy, i.e. already `""`). -/
def _msg_to_block (role : String) (text : String) : TItem :=
  let text := if text = "" then "" else text
  if role = "assistant" then
    { role := "assistant", content := [{ type := "output_text", text := text }] }
  else if role = "system" then
    { role := "system", content := [{ type := "summary_text", text := text }] }
  else
    { role := "user", content := [{ type := "input_text", text := text }] }

/-- Python slice `l[-n:]`: the last `n` elements (all of them when
`l.length ≤ n`).  Nat subtraction makes the short-list case `drop 0`. -/
def pyLastSlice (n : Nat) (l : List α) : List α :=
  l.drop (l.length - n)

/-- `MAX_TURNS = 12` (backend.py:152). -/
def MAX_TURNS : Nat := 12

/-- The loop body at backend.py:156-158:
`_msg_to_block(msg.get("role", "user"), msg.get("content", ""))`. -/
def historyBlock (m : Msg) : TItem :=
  _msg_to_block (m.role.getD "user") (m.content.getD "")

/-- A fresh user item `{"role": "user", "content": [{"type": "input_text",
"text": t}]}`, the shape used at backend.py:161-164 and for the extra
instruction items of the rewrite and classify stages. -/
def userInputItem (t : String) : TItem :=
  { role := "user", content := [{ type := "input_text", text := t }] }

/-- The transcript accumulated before the first stage invocation
(backend.py:150-164): the last `MAX_TURNS` history entries mapped through
`_msg_to_block`, then the current user turn. -/
def conversationHistory0 (wf : WorkflowInput) : List TItem :=
  (pyLastSlice MAX_TURNS wf.conversation_history).map historyBlock
    ++ [userInputItem wf.input_as_text]

/-- Result of a plain stage invocation (`Runner.run` followed by
`final_output_as(str)` and `new_items` converted with `to_input_item()`). -/
structure StageResult where
  new_items : List TItem
  final_output : String
deriving DecidableEq, Repr

/-- Result of the classify stage.  Its agent has `output_type=ClassifySchema`,
so `final_output` is the parsed object, or `none` for a null/missing parsed
value (in which case `.model_dump()` at backend.py:216 raises). -/
structure ClassifyResult where
  new_items : List TItem
  final_output : Option ClassifySchema
deriving DecidableEq, Repr

/-- The external agent execution service: one oracle per agent configuration.
Each maps the input transcript to an error (a raised exception in
`Runner.run`) or its result.  Trace metadata (`run_config`) does not affect
the data flow and is omitted. -/
structure Env where
  rewrite : List TItem → Except String StageResult
  classify : List TItem → Except String ClassifyResult
  internal_q_a : List TItem → Except String StageResult
  external_fact_finding : List TItem → Except String StageResult
  agent : List TItem → Except String StageResult

/-- `classify_result_temp.final_output.model_dump()` (backend.py:216):
`ClassifySchema.model_dump()` is the dict of its one field; calling it on
`None` raises `AttributeError`, a request-level error. -/
def pyModelDump : Option ClassifySchema → Except String (List (String × String))
  | none => .error "AttributeError: NoneType object has no attribute model_dump"
  | some s => .ok [("operating_procedure", s.operating_procedure)]

/-- Python `d or {}` on a dict: an empty dict is falsy. -/
def pyDictOrEmpty (d : List (String × String)) : List (String × String) :=
  if d.isEmpty then [] else d

/-- Python `d.get(k, v)` on a string dict. -/
def pyDictGetD (d : List (String × String)) (k v : String) : String :=
  match d.find? (fun p => p.1 = k) with
  | some p => p.2
  | none => v

/-- The transcript handed to the rewrite stage (backend.py:167-185): the
accumulated transcript plus one user item `"Original question: " ++ raw`. -/
def rewriteStageInput (wf : WorkflowInput) : List TItem :=
  conversationHistory0 wf
    ++ [userInputItem ("Original question: " ++ wf.input_as_text)]

/-- The transcript after appending the rewrite stage's new items
(backend.py:187-189). -/
def afterRewrite (wf : WorkflowInput) (rw : StageResult) : List TItem :=
  conversationHistory0 wf ++ rw.new_items

/-- The transcript handed to the classify stage (backend.py:193-211): the
accumulated transcript plus one user item `"Question: " ++ rewritten`. -/
def classifyStageInput (wf : WorkflowInput) (rw : StageResult) : List TItem :=
  afterRewrite wf rw ++ [userInputItem ("Question: " ++ rw.final_output)]

/-- The transcript after appending the classify stage's new items
(backend.py:213-215); the extra instruction item of the classify call was only
spliced into that call's `input` and is not part of the accumulated
transcript.  This is what every responder stage receives
(`input=[*conversation_history]`, backend.py:223/238/253). -/
def afterClassify (wf : WorkflowInput) (rw : StageResult) (cl : ClassifyResult) :
    List TItem :=
  afterRewrite wf rw ++ cl.new_items

/-- `run_workflow` (backend.py:147-263), transcribed statement by statement.
`wf = workflow_input.model_dump()` is a deep copy, so `wf` is the same value
as `workflow_input`.  Stage failures (raised exceptions) short-circuit as
`Except.error`. -/
def run_workflow (env : Env) (workflow_input : WorkflowInput) :
    Except String WorkflowResult :=
  let wf := workflow_input
  match env.rewrite (rewriteStageInput wf) with
  | .error e => .error e
  | .ok rw =>
    match env.classify (classifyStageInput wf rw) with
    | .error e => .error e
    | .ok cl =>
      match pyModelDump cl.final_output with
      | .error e => .error e
      | .ok classify_parsed =>
        let op := pyDictGetD (pyDictOrEmpty classify_parsed) "operating_procedure" ""
        if op = "q-and-a" then
          match env.internal_q_a (afterClassify wf rw cl) with
          | .error e => .error e
          | .ok r => .ok { final_answer := r.final_output, path := "internal_q_a" }
        else if op = "fact-finding" then
          match env.external_fact_finding (afterClassify wf rw cl) with
          | .error e => .error e
          | .ok r => .ok { final_answer := r.final_output, path := "external_fact_finding" }
        else
          match env.agent (afterClassify wf rw cl) with
          | .error e => .error e
          | .ok r => .ok { final_answer := r.final_output, path := "agent" }

/-- `class Query(BaseModel): input_text: str` (backend.py:278-279). -/
structure Query where
  input_text : String
deriving DecidableEq, Repr

/-- `WorkflowInput(input_as_text=...)`: the pydantic default
`conversation_history: List[Dict[str, str]] = []` (backend.py:131) fills the
omitted field. -/
def WorkflowInput.of_input_text (t : String) : WorkflowInput :=
  { input_as_text := t, conversation_history := [] }

/-- The `POST /query` handler (backend.py:281-283):
`return await run_workflow(WorkflowInput(input_as_text=req.input_text))`. -/
def query (env : Env) (req : Query) : Except String WorkflowResult :=
  run_workflow env (WorkflowInput.of_input_text req.input_text)

/-! Front-end (`app.py`). -/

/-- One entry built by the front-end for the backend call (app.py:52-55):
`{"role": m.get("role", "user"), "content": m.get("content", "")}` — both
keys are present after defaulting. -/
def app_history_entry (m : Msg) : Msg :=
  { role := some (m.role.getD "user"), content := some (m.content.getD "") }

/-- Python `s or d` on strings: the empty string is falsy. -/
def pyStrOr (s d : String) : String :=
  if s = "" then d else s

/-- The routing label shown to the user (app.py:71):
`route = (result.get("path") or "unknown").replace("_", " ")`.  The `path`
key is always present in a workflow result dict. -/
def displayed_route (r : WorkflowResult) : String :=
  (pyStrOr r.path "unknown").replace "_" " "

/-- The "Clear chat" action (app.py:84-86): `st.session_state.history = []`,
discarding the previous session history. -/
def clear_chat (_h : List Msg) : List Msg := []

/-! A state-passing transcription of `run_workflow` used to verify its frame
behaviour on the caller-owned history list. -/

/-- The Python list objects visible to one `run_workflow` call: the caller's
`workflow_input.conversation_history` list and the local
`conversation_history` list the function builds. -/
structure ListState where
  caller_history : List Msg
  local_items : List TItem
deriving DecidableEq, Repr

/-- `run_workflow` with every operation on a Python list object made
explicit.  `wf = workflow_input.model_dump()` (backend.py:148) deep-copies
the caller's list; slicing copies again; `conversation_history = []` binds a
fresh list object, and every `append`/`extend` in the source targets that
fresh object.  No statement writes through `workflow_input`. -/
def run_workflow_mut (env : Env) (input_as_text : String) (s : ListState) :
    Except String WorkflowResult × ListState :=
  let wf_history := s.caller_history
  let prior := pyLastSlice MAX_TURNS wf_history
  let s := { s with local_items := [] }
  let s := { s with local_items := s.local_items ++ prior.map historyBlock }
  let s := { s with local_items := s.local_items ++ [userInputItem input_as_text] }
  match env.rewrite
      (s.local_items ++ [userInputItem ("Original question: " ++ input_as_text)]) with
  | .error e => (.error e, s)
  | .ok rw =>
    let s := { s with local_items := s.local_items ++ rw.new_items }
    match env.classify
        (s.local_items ++ [userInputItem ("Question: " ++ rw.final_output)]) with
    | .error e => (.error e, s)
    | .ok cl =>
      let s := { s with local_items := s.local_items ++ cl.new_items }
      match pyModelDump cl.final_output with
      | .error e => (.error e, s)
      | .ok classify_parsed =>
        let op := pyDictGetD (pyDictOrEmpty classify_parsed) "operating_procedure" ""
        if op = "q-and-a" then
          match env.internal_q_a s.local_items with
          | .error e => (.error e, s)
          | .ok r =>
            let s := { s with local_items := s.local_items ++ r.new_items }
            (.ok { final_answer := r.final_output, path := "internal_q_a" }, s)
        else if op = "fact-finding" then
          match env.external_fact_finding s.local_items with
          | .error e => (.error e, s)
          | .ok r =>
            let s := { s with local_items := s.local_items ++ r.new_items }
            (.ok { final_answer := r.final_output, path := "external_fact_finding" }, s)
        else
          match env.agent s.local_items with
          | .error e => (.error e, s)
          | .ok r =>
            let s := { s with local_items := s.local_items ++ r.new_items }
            (.ok { final_answer := r.final_output, path := "agent" }, s)

/-! Concrete service instances used to exercise the theorems. -/

/-- A stage that ignores its transcript and answers with a fixed string. -/
def stubStage (out : String) : List TItem → Except String StageResult :=
  fun _ => .ok { new_items := [], final_output := out }

/-- A stage that always fails with a fixed error. -/
def failStage (e : String) : List TItem → Except String StageResult :=
  fun _ => .error e

/-- A service whose stages all succeed and whose classify stage yields the
given operating procedure. -/
def okEnv (op : String) : Env :=
  { rewrite := stubStage "rewritten"
    classify := fun _ =>
      .ok { new_items := [], final_output := some { operating_procedure := op } }
    internal_q_a := stubStage "qa-answer"
    external_fact_finding := stubStage "ff-answer"
    agent := stubStage "agent-answer" }

/-- `okEnv` with the classify stage failing instead. -/
def classifyFailEnv (e : String) : Env :=
  { okEnv "q-and-a" with classify := fun _ => .error e }

/-- `okEnv` with the classify stage returning a null parsed output. -/
def classifyNullEnv : Env :=
  { okEnv "q-and-a" with
    classify := fun _ => .ok { new_items := [], final_output := none } }

/-- `okEnv` with the rewrite stage failing. -/
def rewriteFailEnv : Env := { okEnv "q-and-a" with rewrite := failStage "e1" }

/-- `okEnv "q-and-a"` with the internal Q&A responder failing. -/
def qaFailEnv : Env := { okEnv "q-and-a" with internal_q_a := failStage "e3" }

/-- `okEnv "fact-finding"` with the external fact-finding responder failing. -/
def ffFailEnv : Env :=
  { okEnv "fact-finding" with external_fact_finding := failStage "e4" }

/-- `okEnv "other"` with the fallback agent failing. -/
def agFailEnv : Env := { okEnv "other" with agent := failStage "e5" }

/-- A sample well-formed history entry. -/
def msgU : Msg := { role := some "user", content := some "hello" }

/-- A 15-turn history, longer than the truncation window. -/
def hist15 : List Msg := List.replicate 15 msgU

/-- A sample workflow input with empty history. -/
def wfT : WorkflowInput := { input_as_text := "hi", conversation_history := [] }

/-- `true` exactly on successful outcomes. -/
def exceptOk : Except ε α → Bool
  | .ok _ => true
  | .error _ => false

/-- Helper: once the rewrite and classify stages succeed and the classify
output parses, `run_workflow` reduces to the branch on `operating_procedure`.
Shared by several claim proofs. -/
theorem run_workflow_ok_eq (env : Env) (wf : WorkflowInput) (rw : StageResult)
    (cl : ClassifyResult) (op : String)
    (hrw : env.rewrite (rewriteStageInput wf) = .ok rw)
    (hcl : env.classify (classifyStageInput wf rw) = .ok cl)
    (hop : cl.final_output = some { operating_procedure := op }) :
    run_workflow env wf
      = if op = "q-and-a" then
          match env.internal_q_a (afterClassify wf rw cl) with
          | .error e => .error e
          | .ok r => .ok { final_answer := r.final_output, path := "internal_q_a" }
        else if op = "fact-finding" then
          match env.external_fact_finding (afterClassify wf rw cl) with
          | .error e => .error e
          | .ok r => .ok { final_answer := r.final_output, path := "external_fact_finding" }
        else
          match env.agent (afterClassify wf rw cl) with
          | .error e => .error e
          | .ok r => .ok { final_answer := r.final_output, path := "agent" } := by
  have hdict : pyDictGetD (pyDictOrEmpty [("operating_procedure", op)])
      "operating_procedure" "" = op := rfl
  simp only [run_workflow, hrw, hcl, hop, pyModelDump, hdict]

/-- C4: `_msg_to_block` maps role "assistant" to an assistant-role
`output_text` item, role "system" to a system-role `summary_text` item, and
"user" or any unrecognized role to a user-role `input_text` item; it is a
total function of role and text. -/
theorem c4_msg_to_block_role_mapping (role text : String) :
    _msg_to_block "assistant" text
      = { role := "assistant", content := [{ type := "output_text", text := text }] }
    ∧ _msg_to_block "system" text
      = { role := "system", content := [{ type := "summary_text", text := text }] }
    ∧ (role ≠ "assistant" → role ≠ "system" →
        _msg_to_block role text
          = { role := "user", content := [{ type := "input_text", text := text }] }) := by
  unfold _msg_to_block
  by_cases h : text = "" <;> simp [h] <;> intro h1 h2 <;> simp [h1, h2]

/-- C4 witness: evaluation at the unrecognized role "bot". -/
theorem c4_witness :
    ("bot" : String) ≠ "assistant" ∧ ("bot" : String) ≠ "system"
    ∧ _msg_to_block "bot" "x"
      = { role := "user", content := [{ type := "input_text", text := "x" }] } :=
  ⟨by decide, by decide,
    (c4_msg_to_block_role_mapping "bot" "x").2.2 (by decide) (by decide)⟩

/-- C3: when the conversation history is longer than `MAX_TURNS = 12`, the
transcript built before the first stage invocation is exactly the most recent
12 turns, in their original order, followed by the new user input item — 13
items in total. -/
theorem c3_truncation (wf : WorkflowInput)
    (h : wf.conversation_history.length > MAX_TURNS) :
    conversationHistory0 wf
      = (wf.conversation_history.drop (wf.conversation_history.length - 12)).map
          historyBlock ++ [userInputItem wf.input_as_text]
    ∧ (wf.conversation_history.drop (wf.conversation_history.length - 12)).length = 12
    ∧ (conversationHistory0 wf).length = 13 := by
  have hd : (wf.conversation_history.drop
      (wf.conversation_history.length - 12)).length = 12 := by
    rw [List.length_drop]
    have : MAX_TURNS = 12 := rfl
    omega
  refine ⟨rfl, hd, ?_⟩
  have h' : wf.conversation_history.length > 12 := h
  simp [conversationHistory0, pyLastSlice, MAX_TURNS, hd]
  omega

/-- C3 witness: a 15-turn history yields a 13-item initial transcript. -/
theorem c3_truncation_witness :
    ({ input_as_text := "q", conversation_history := hist15 } :
        WorkflowInput).conversation_history.length > MAX_TURNS
    ∧ (conversationHistory0
        { input_as_text := "q", conversation_history := hist15 }).length = 13 :=
  ⟨by decide,
    (c3_truncation { input_as_text := "q", conversation_history := hist15 }
      (by decide)).2.2⟩

/-- C9: the HTTP handler `query` invokes `run_workflow` on a `WorkflowInput`
whose `conversation_history` is the pydantic default `[]`, so its initial
transcript is the single new user item — a single-turn conversation,
independent of any earlier request. -/
theorem c9_http_single_turn (env : Env) (req : Query) :
    query env req
      = run_workflow env { input_as_text := req.input_text, conversation_history := [] }
    ∧ (WorkflowInput.of_input_text req.input_text).conversation_history = []
    ∧ conversationHistory0 (WorkflowInput.of_input_text req.input_text)
      = [userInputItem req.input_text] :=
  ⟨rfl, rfl, rfl⟩

/-- C1: the branch decision matches `operating_procedure` by exact
case-sensitive equality: "q-and-a" yields path "internal_q_a",
"fact-finding" yields path "external_fact_finding", and every other value
yields path "agent". -/
theorem c1_branch_decision (env : Env) (wf : WorkflowInput) (rw : StageResult)
    (cl : ClassifyResult) (op : String) (rq rf ra : StageResult)
    (hrw : env.rewrite (rewriteStageInput wf) = .ok rw)
    (hcl : env.classify (classifyStageInput wf rw) = .ok cl)
    (hop : cl.final_output = some { operating_procedure := op })
    (hq : env.internal_q_a (afterClassify wf rw cl) = .ok rq)
    (hf : env.external_fact_finding (afterClassify wf rw cl) = .ok rf)
    (ha : env.agent (afterClassify wf rw cl) = .ok ra) :
    (op = "q-and-a" →
      run_workflow env wf
        = .ok { final_answer := rq.final_output, path := "internal_q_a" })
    ∧ (op = "fact-finding" →
      run_workflow env wf
        = .ok { final_answer := rf.final_output, path := "external_fact_finding" })
    ∧ (op ≠ "q-and-a" → op ≠ "fact-finding" →
      run_workflow env wf
        = .ok { final_answer := ra.final_output, path := "agent" }) := by
  rw [run_workflow_ok_eq env wf rw cl op hrw hcl hop]
  refine ⟨fun h => ?_, fun h => ?_, fun h1 h2 => ?_⟩
  · simp [h, hq]
  · have hne : op ≠ "q-and-a" := by rw [h]; decide
    simp [hne, h, hf]
  · simp [h1, h2, ha]

/-- C1 witness: "q-and-a" routes to internal Q&A, while the differently-cased
"Q-AND-A" routes to the fallback agent. -/
theorem c1_branch_decision_witness :
    run_workflow (okEnv "q-and-a") wfT
      = .ok { final_answer := "qa-answer", path := "internal_q_a" }
    ∧ run_workflow (okEnv "Q-AND-A") wfT
      = .ok { final_answer := "agent-answer", path := "agent" } :=
  ⟨(c1_branch_decision (okEnv "q-and-a") wfT _ _ "q-and-a" _ _ _
      rfl rfl rfl rfl rfl rfl).1 rfl,
   (c1_branch_decision (okEnv "Q-AND-A") wfT _ _ "Q-AND-A" _ _ _
      rfl rfl rfl rfl rfl rfl).2.2 (by decide) (by decide)⟩

/-- C2: an unparseable classify output — a service-side parse failure or a
null parsed value — makes `run_workflow` fail; a Workflow Result is only ever
produced when the classification parsed into some `ClassifySchema`. -/
theorem c2_classify_parse_failure (env : Env) (wf : WorkflowInput)
    (rw : StageResult)
    (hrw : env.rewrite (rewriteStageInput wf) = .ok rw) :
    (∀ e, env.classify (classifyStageInput wf rw) = .error e →
      run_workflow env wf = .error e)
    ∧ (∀ cl, env.classify (classifyStageInput wf rw) = .ok cl →
        cl.final_output = none →
        run_workflow env wf
          = .error "AttributeError: NoneType object has no attribute model_dump")
    ∧ (∀ r, run_workflow env wf = .ok r →
        ∃ cl s, env.classify (classifyStageInput wf rw) = .ok cl
          ∧ cl.final_output = some s) := by
  refine ⟨fun e h => ?_, fun cl h hn => ?_, fun r h => ?_⟩
  · simp only [run_workflow, hrw, h]
  · simp only [run_workflow, hrw, h, hn, pyModelDump]
  · cases hc : env.classify (classifyStageInput wf rw) with
    | error e =>
      rw [run_workflow] at h
      simp only [hrw, hc] at h
      exact Except.noConfusion h
    | ok cl =>
      cases hn : cl.final_output with
      | none =>
        rw [run_workflow] at h
        simp only [hrw, hc, hn, pyModelDump] at h
        exact Except.noConfusion h
      | some s => exact ⟨cl, s, rfl, hn⟩

/-- C2 witness: a failing classify stage and a null classify output both
abort the request with an error. -/
theorem c2_classify_parse_failure_witness :
    run_workflow (classifyFailEnv "boom") wfT = .error "boom"
    ∧ run_workflow classifyNullEnv wfT
      = .error "AttributeError: NoneType object has no attribute model_dump" :=
  ⟨(c2_classify_parse_failure (classifyFailEnv "boom") wfT
      { new_items := [], final_output := "rewritten" } rfl).1 "boom" rfl,
   (c2_classify_parse_failure classifyNullEnv wfT
      { new_items := [], final_output := "rewritten" } rfl).2.1
     { new_items := [], final_output := none } rfl rfl⟩

/-- C5: a failing stage invocation at any point — rewrite, classify, or the
selected responder — makes `run_workflow` yield exactly that error; no
Workflow Result with a populated `final_answer` is produced, and stages after
the failing one are never consulted (the conclusion holds for every choice of
the later stage oracles). -/
theorem c5_stage_failure_aborts (env : Env) (wf : WorkflowInput) :
    (∀ e, env.rewrite (rewriteStageInput wf) = .error e →
      run_workflow env wf = .error e)
    ∧ (∀ rw e, env.rewrite (rewriteStageInput wf) = .ok rw →
        env.classify (classifyStageInput wf rw) = .error e →
        run_workflow env wf = .error e)
    ∧ (∀ rw cl e, env.rewrite (rewriteStageInput wf) = .ok rw →
        env.classify (classifyStageInput wf rw) = .ok cl →
        cl.final_output = some { operating_procedure := "q-and-a" } →
        env.internal_q_a (afterClassify wf rw cl) = .error e →
        run_workflow env wf = .error e)
    ∧ (∀ rw cl e, env.rewrite (rewriteStageInput wf) = .ok rw →
        env.classify (classifyStageInput wf rw) = .ok cl →
        cl.final_output = some { operating_procedure := "fact-finding" } →
        env.external_fact_finding (afterClassify wf rw cl) = .error e →
        run_workflow env wf = .error e)
    ∧ (∀ rw cl op e, env.rewrite (rewriteStageInput wf) = .ok rw →
        env.classify (classifyStageInput wf rw) = .ok cl →
        cl.final_output = some { operating_procedure := op } →
        op ≠ "q-and-a" → op ≠ "fact-finding" →
        env.agent (afterClassify wf rw cl) = .error e →
        run_workflow env wf = .error e) := by
  refine ⟨fun e h => ?_, fun rw e h1 h2 => ?_,
    fun rw cl e h1 h2 h3 h4 => ?_, fun rw cl e h1 h2 h3 h4 => ?_,
    fun rw cl op e h1 h2 h3 hne1 hne2 h4 => ?_⟩
  · simp only [run_workflow, h]
  · simp only [run_workflow, h1, h2]
  · rw [run_workflow_ok_eq env wf rw cl "q-and-a" h1 h2 h3]
    simp [h4]
  · rw [run_workflow_ok_eq env wf rw cl "fact-finding" h1 h2 h3]
    simp [h4]
  · rw [run_workflow_ok_eq env wf rw cl op h1 h2 h3]
    simp [hne1, hne2, h4]

/-- C5 witness: each of the five failure points, at a concrete service. -/
theorem c5_stage_failure_aborts_witness :
    run_workflow rewriteFailEnv wfT = .error "e1"
    ∧ run_workflow (classifyFailEnv "e2") wfT = .error "e2"
    ∧ run_workflow qaFailEnv wfT = .error "e3"
    ∧ run_workflow ffFailEnv wfT = .error "e4"
    ∧ run_workflow agFailEnv wfT = .error "e5" :=
  ⟨(c5_stage_failure_aborts rewriteFailEnv wfT).1 "e1" rfl,
   (c5_stage_failure_aborts (classifyFailEnv "e2") wfT).2.1
     { new_items := [], final_output := "rewritten" } "e2" rfl rfl,
   (c5_stage_failure_aborts qaFailEnv wfT).2.2.1
     { new_items := [], final_output := "rewritten" }
     { new_items := [], final_output := some { operating_procedure := "q-and-a" } }
     "e3" rfl rfl rfl rfl,
   (c5_stage_failure_aborts ffFailEnv wfT).2.2.2.1
     { new_items := [], final_output := "rewritten" }
     { new_items := [], final_output := some { operating_procedure := "fact-finding" } }
     "e4" rfl rfl rfl rfl,
   (c5_stage_failure_aborts agFailEnv wfT).2.2.2.2
     { new_items := [], final_output := "rewritten" }
     { new_items := [], final_output := some { operating_procedure := "other" } }
     "other" "e5" rfl rfl rfl (by decide) (by decide) rfl⟩

/-- C6: the rewrite stage receives the accumulated transcript plus one user
instruction item embedding the raw input, the classify stage receives the
transcript extended with the rewrite stage's new items plus one user
instruction item embedding the rewritten question, and the selected responder
receives exactly the accumulated transcript (extended with the classify
stage's new items) with no extra instruction item. -/
theorem c6_stage_inputs (env : Env) (wf : WorkflowInput) (rw : StageResult)
    (cl : ClassifyResult)
    (hrw : env.rewrite (conversationHistory0 wf
      ++ [userInputItem ("Original question: " ++ wf.input_as_text)]) = .ok rw)
    (hcl : env.classify ((conversationHistory0 wf ++ rw.new_items)
      ++ [userInputItem ("Question: " ++ rw.final_output)]) = .ok cl) :
    (∀ r, cl.final_output = some { operating_procedure := "q-and-a" } →
      env.internal_q_a ((conversationHistory0 wf ++ rw.new_items) ++ cl.new_items)
        = .ok r →
      run_workflow env wf
        = .ok { final_answer := r.final_output, path := "internal_q_a" })
    ∧ (∀ r, cl.final_output = some { operating_procedure := "fact-finding" } →
      env.external_fact_finding
          ((conversationHistory0 wf ++ rw.new_items) ++ cl.new_items) = .ok r →
      run_workflow env wf
        = .ok { final_answer := r.final_output, path := "external_fact_finding" })
    ∧ (∀ r op, cl.final_output = some { operating_procedure := op } →
      op ≠ "q-and-a" → op ≠ "fact-finding" →
      env.agent ((conversationHistory0 wf ++ rw.new_items) ++ cl.new_items) = .ok r →
      run_workflow env wf
        = .ok { final_answer := r.final_output, path := "agent" }) := by
  refine ⟨fun r h3 h4 => ?_, fun r h3 h4 => ?_, fun r op h3 hne1 hne2 h4 => ?_⟩
  · rw [run_workflow_ok_eq env wf rw cl "q-and-a" hrw hcl h3]
    simp only [List.append_assoc] at h4
    simp [afterClassify, afterRewrite, h4]
  · rw [run_workflow_ok_eq env wf rw cl "fact-finding" hrw hcl h3]
    simp only [List.append_assoc] at h4
    simp [afterClassify, afterRewrite, h4]
  · rw [run_workflow_ok_eq env wf rw cl op hrw hcl h3]
    simp only [List.append_assoc] at h4
    simp [afterClassify, afterRewrite, hne1, hne2, h4]

/-- C6 witness: the three responder selections at concrete services. -/
theorem c6_stage_inputs_witness :
    run_workflow (okEnv "q-and-a") wfT
      = .ok { final_answer := "qa-answer", path := "internal_q_a" }
    ∧ run_workflow (okEnv "fact-finding") wfT
      = .ok { final_answer := "ff-answer", path := "external_fact_finding" }
    ∧ run_workflow (okEnv "other") wfT
      = .ok { final_answer := "agent-answer", path := "agent" } :=
  ⟨(c6_stage_inputs (okEnv "q-and-a") wfT
      { new_items := [], final_output := "rewritten" }
      { new_items := [],
        final_output := some { operating_procedure := "q-and-a" } }
      rfl rfl).1 { new_items := [], final_output := "qa-answer" } rfl rfl,
   (c6_stage_inputs (okEnv "fact-finding") wfT
      { new_items := [], final_output := "rewritten" }
      { new_items := [],
        final_output := some { operating_procedure := "fact-finding" } }
      rfl rfl).2.1 { new_items := [], final_output := "ff-answer" } rfl rfl,
   (c6_stage_inputs (okEnv "other") wfT
      { new_items := [], final_output := "rewritten" }
      { new_items := [],
        final_output := some { operating_procedure := "other" } }
      rfl rfl).2.2 { new_items := [], final_output := "agent-answer" } "other"
      rfl (by decide) (by decide) rfl⟩

/-- C7: a history entry with a missing role or missing text is recovered
locally — role defaults to "user" and text to the empty string, both in the
backend loop and in the front-end's history construction — and when every
stage of the service succeeds with a parseable classification, the request
succeeds for every history, malformed entries included. -/
theorem c7_malformed_history_recovered (env : Env) :
    (∀ m : Msg, m.role = none → m.content = none →
      historyBlock m
        = { role := "user", content := [{ type := "input_text", text := "" }] })
    ∧ (∀ m : Msg, m.role = none → m.content = none →
      app_history_entry m = { role := some "user", content := some "" })
    ∧ ((∀ tr, exceptOk (env.rewrite tr) = true) →
       (∀ tr, exceptOk (env.classify tr) = true) →
       (∀ tr cl, env.classify tr = .ok cl → cl.final_output ≠ none) →
       (∀ tr, exceptOk (env.internal_q_a tr) = true) →
       (∀ tr, exceptOk (env.external_fact_finding tr) = true) →
       (∀ tr, exceptOk (env.agent tr) = true) →
       ∀ (hist : List Msg) (t : String),
         exceptOk (run_workflow env
           { input_as_text := t, conversation_history := hist }) = true) := by
  refine ⟨fun m h1 h2 => ?_, fun m h1 h2 => ?_,
    fun hr hc hcp hq hf ha hist t => ?_⟩
  · simp [historyBlock, h1, h2, _msg_to_block]
  · simp [app_history_entry, h1, h2]
  · set wf : WorkflowInput := { input_as_text := t, conversation_history := hist }
    cases h1 : env.rewrite (rewriteStageInput wf) with
    | error e =>
      have := hr (rewriteStageInput wf)
      rw [h1] at this
      exact absurd this (by simp [exceptOk])
    | ok rw =>
      cases h2 : env.classify (classifyStageInput wf rw) with
      | error e =>
        have := hc (classifyStageInput wf rw)
        rw [h2] at this
        exact absurd this (by simp [exceptOk])
      | ok cl =>
        cases h3 : cl.final_output with
        | none => exact absurd h3 (hcp (classifyStageInput wf rw) cl h2)
        | some s =>
          rw [run_workflow_ok_eq env wf rw cl s.operating_procedure h1 h2
            (by rw [h3])]
          split_ifs
          · cases h4 : env.internal_q_a (afterClassify wf rw cl) with
            | error e =>
              have := hq (afterClassify wf rw cl)
              rw [h4] at this
              exact absurd this (by simp [exceptOk])
            | ok r => simp [exceptOk]
          · cases h4 : env.external_fact_finding (afterClassify wf rw cl) with
            | error e =>
              have := hf (afterClassify wf rw cl)
              rw [h4] at this
              exact absurd this (by simp [exceptOk])
            | ok r => simp [exceptOk]
          · cases h4 : env.agent (afterClassify wf rw cl) with
            | error e =>
              have := ha (afterClassify wf rw cl)
              rw [h4] at this
              exact absurd this (by simp [exceptOk])
            | ok r => simp [exceptOk]

/-- C7 witness: an entry with both keys missing maps to an empty user
`input_text` item, and a request over a history made of such entries
succeeds. -/
theorem c7_malformed_history_recovered_witness :
    historyBlock { role := none, content := none }
      = { role := "user", content := [{ type := "input_text", text := "" }] }
    ∧ exceptOk (run_workflow (okEnv "q-and-a")
        { input_as_text := "q",
          conversation_history := [{ role := none, content := none }] }) = true :=
  ⟨(c7_malformed_history_recovered (okEnv "q-and-a")).1
      { role := none, content := none } rfl rfl,
   (c7_malformed_history_recovered (okEnv "q-and-a")).2.2
      (fun _ => rfl) (fun _ => rfl)
      (fun _ cl h => by cases h; simp)
      (fun _ => rfl) (fun _ => rfl) (fun _ => rfl)
      [{ role := none, content := none }] "q"⟩

/-- Helper: a successful `run_workflow` result carries one of the three
branch paths. -/
theorem run_workflow_path_mem (env : Env) (wf : WorkflowInput)
    (r : WorkflowResult) (h : run_workflow env wf = .ok r) :
    r.path = "internal_q_a" ∨ r.path = "external_fact_finding"
      ∨ r.path = "agent" := by
  unfold run_workflow at h
  dsimp only at h
  repeat' split at h
  all_goals try exact Except.noConfusion h
  all_goals injection h with h
  all_goals subst h
  all_goals simp

/-- C8: for every Workflow Result the front-end displays, the routing label
equals the result's path with underscores replaced by spaces, and the "Clear
chat" action resets the session history to the empty list. -/
theorem c8_route_label_and_clear :
    (∀ (env : Env) (wf : WorkflowInput) (r : WorkflowResult),
      run_workflow env wf = .ok r →
      displayed_route r = r.path.replace "_" " ")
    ∧ ∀ h : List Msg, clear_chat h = [] := by
  constructor
  · intro env wf r h
    rcases run_workflow_path_mem env wf r h with hp | hp | hp <;>
      simp [displayed_route, pyStrOr, hp]
  · intro h
    rfl

/-- C8 witness: the label for a fallback-agent result, at a concrete run. -/
theorem c8_route_label_and_clear_witness :
    displayed_route { final_answer := "agent-answer", path := "agent" }
      = ("agent" : String).replace "_" " "
    ∧ clear_chat [msgU] = [] :=
  ⟨c8_route_label_and_clear.1 (okEnv "other") wfT
      { final_answer := "agent-answer", path := "agent" } rfl,
   c8_route_label_and_clear.2 [msgU]⟩

/-- Helper: the state-passing transcription never writes the caller-owned
history list. -/
theorem run_workflow_mut_frame (env : Env) (t : String) (s : ListState) :
    ((run_workflow_mut env t s).2).caller_history = s.caller_history := by
  unfold run_workflow_mut
  dsimp only
  repeat' split
  all_goals rfl

/-- Helper: the state-passing transcription computes the same outcome as the
pure `run_workflow` on the caller's history value. -/
theorem run_workflow_mut_refines (env : Env) (t : String) (s : ListState) :
    (run_workflow_mut env t s).1
      = run_workflow env
          { input_as_text := t, conversation_history := s.caller_history } := by
  simp only [run_workflow_mut, run_workflow, rewriteStageInput,
    classifyStageInput, afterClassify, afterRewrite, conversationHistory0]
  repeat' split
  all_goals simp_all

/-- C10: `run_workflow` never mutates the caller-supplied
`conversation_history`: in the state-passing transcription that tracks every
list operation of the source, the caller-owned list is identical before and
after the call, on success or failure, and the computed outcome agrees with
the pure `run_workflow` of the caller's history value. -/
theorem c10_caller_history_unchanged :
    ∀ (env : Env) (t : String) (s : ListState),
      ((run_workflow_mut env t s).2).caller_history = s.caller_history
      ∧ (run_workflow_mut env t s).1
          = run_workflow env
              { input_as_text := t, conversation_history := s.caller_history } :=
  fun env t s =>
    ⟨run_workflow_mut_frame env t s, run_workflow_mut_refines env t s⟩
